import Mathlib

/-
Verification of the release-mirroring script `mirror_github_releases.py`.

The script copies GitHub releases (metadata, binary assets, source-code
archives) from a source repository to a target repository, keeping a local
JSON ledger (`synced_data.json`) of what has already been synchronized.

This file gives a shallow embedding of the script's core logic:
  - the ledger load/save routines (`load_synced_data`, `save_synced_data`),
    with the filesystem modelled as three optional file slots
    (primary, backup, temp) whose contents either parse or do not, and a
    save failure point naming which step of the save raised;
  - the per-asset synchronization decision (`need_sync`) of
    `sync_release_assets`;
  - the per-release asset reconciliation loop (`runAssets`), with the
    hosting platform's upload capability modelled as: a successful upload
    of a downloaded source asset yields a target asset of the same size
    whose timestamp is the upload instant `now`; an exhausted upload leaves
    the same-named target asset deleted (because `retry_upload` deletes it
    before each attempt); downloads are folded into the per-asset success
    oracle `ok`;
  - the ledger write performed for one asset by `sync_release_assets`
    (`sync_asset_ledger`), with the re-read fingerprint of the uploaded
    asset as an input;
  - the bounded retry loop `retry_upload`, driven by an oracle giving the
    outcome of each upload attempt, recording the number of attempts,
    sleeps and delete calls;
  - the source-archive presence check of `sync_source_code`;
  - `get_or_create_release` and the caller's skip behaviour in `main`;
  - `download_file`'s existing-file short-circuit.

Machine integers do not occur (sizes and timestamps are unbounded Python
ints; timestamps are modelled as natural numbers since only their order is
used).  Python dicts are modelled as association lists whose insert
prepends, so a lookup sees the latest binding, matching dict assignment.
-/

namespace Mirror

/-! ## Association lists (model of Python dicts keyed by strings) -/

def alookup {α : Type} : List (String × α) → String → Option α
  | [], _ => none
  | p :: rest, k => if p.1 = k then some p.2 else alookup rest k

def ainsert {α : Type} (l : List (String × α)) (k : String) (v : α) :
    List (String × α) :=
  (k, v) :: l

def aerase {α : Type} (l : List (String × α)) (k : String) : List (String × α) :=
  l.filter (fun p => p.1 != k)

/-! ## Data model: assets, ledger rows, the synced-data ledger -/

/-- Size/timestamp fingerprint of an asset, as produced by `get_asset_info`:
the asset's byte size and its optional `updated_at` instant (normalized to
UTC in the script; modelled as a natural number since only order is used). -/
structure AssetInfo where
  size : Nat
  updated_at : Option Nat
deriving DecidableEq

/-- A source release asset (`asset` in `sync_release_assets`): name, size,
optional timestamp and optional declared content type. -/
structure SourceAsset where
  name : String
  size : Nat
  updated_at : Option Nat
  content_type : Option String
deriving DecidableEq

/-- A row of the ledger's `assets` namespace: name plus the fingerprint
recorded after a successful transfer, and the `synced_at` instant. -/
structure LedgerAsset where
  name : String
  size : Nat
  updated_at : Option Nat
  synced_at : Nat
deriving DecidableEq

/-- A row of the ledger's `source_codes` namespace. -/
structure SourceCodeEntry where
  exists_ : Bool
  synced_at : Nat
deriving DecidableEq

/-- A row of the ledger's `releases` namespace. -/
structure ReleaseEntry where
  tag_name : String
  fully_synced_at : Nat
deriving DecidableEq

/-- The persisted ledger `synced_data.json`: three namespaces keyed by
source release id (for `releases` and `assets`) or tag name
(for `source_codes`). -/
structure SyncedData where
  releases : List (String × ReleaseEntry)
  assets : List (String × List (String × LedgerAsset))
  source_codes : List (String × List (String × SourceCodeEntry))
deriving DecidableEq

/-- The empty ledger returned by `load_synced_data` when nothing usable is
on disk. -/
def emptySyncedData : SyncedData := ⟨[], [], []⟩

/-- The composite ledger key of `sync_release_assets`:
`asset_key = f"{asset_name}_{asset.size}"`. -/
def asset_key (name : String) (size : Nat) : String :=
  name ++ "_" ++ toString size

/-! ## Ledger store: the files on disk and `load`/`save` (lines 26-57) -/

/-- Content of one ledger file on disk: either data that `json.load`
parses, or bytes it rejects. -/
inductive FData
  | valid (d : SyncedData)
  | invalid
deriving DecidableEq

/-- The three file slots the ledger store touches: `SYNCED_DATA_FILE`
(primary), `SYNCED_DATA_BACKUP` (backup) and `SYNCED_DATA_FILE + ".tmp"`
(temp).  `none` means the file does not exist. -/
structure LedgerFS where
  primary : Option FData
  backup : Option FData
  temp : Option FData
deriving DecidableEq

/-- Where a `save_synced_data` call raises, if anywhere: while writing the
temp file, in `os.replace(primary, backup)`, in `os.replace(temp, primary)`,
or nowhere. -/
inductive SaveFail
  | atWrite
  | atBackupReplace
  | atPrimaryReplace
  | noFail
deriving DecidableEq

/-- `load_synced_data`, lines 26-42: if the primary file exists and parses,
return its content; if reading/parsing the existing primary raises, fall
back to the backup when it exists and parses; in every other case
(including the primary file simply not existing - the `os.path.exists`
guard means no exception is raised then, so the backup is never consulted)
return the empty ledger.  The function is total: it never raises. -/
def load_synced_data (fs : LedgerFS) : SyncedData :=
  match fs.primary with
  | some (.valid d) => d
  | some .invalid =>
    match fs.backup with
    | some (.valid d) => d
    | _ => emptySyncedData
  | none => emptySyncedData

/-- `save_synced_data`, lines 45-57: write the temp file, then (if a
primary exists) `os.replace` the primary onto the backup slot, then
`os.replace` the temp onto the primary slot.  `os.replace` moves: the
source slot becomes empty, the destination gets the source's content, and
a failing replace changes nothing (it is atomic).  The `except` handler
removes the temp file when it exists.  A failure while writing the temp
leaves primary/backup untouched; a failure of the first replace leaves
everything untouched (minus the temp); a failure of the second replace
happens after the primary was already moved onto the backup slot, so the
primary slot is left empty and the backup slot holds the old primary. -/
def save_synced_data (fs : LedgerFS) (d : SyncedData) (fail : SaveFail) : LedgerFS :=
  match fail with
  | .atWrite => { fs with temp := none }
  | .atBackupReplace =>
    match fs.primary with
    | some _ => { fs with temp := none }
    | none => { primary := some (.valid d), backup := fs.backup, temp := none }
  | .atPrimaryReplace =>
    match fs.primary with
    | some p => { primary := none, backup := some p, temp := none }
    | none => { fs with temp := none }
  | .noFail =>
    match fs.primary with
    | some p => { primary := some (.valid d), backup := some p, temp := none }
    | none => { primary := some (.valid d), backup := fs.backup, temp := none }

/-! ## The per-asset synchronization decision (lines 193-216) -/

/-- The `need_sync` decision of `sync_release_assets`, lines 193-216 of the
script.  `hasLedgerKey` is `asset_key in synced_data['assets'][source_id]`,
`target_asset` is `target_assets.get(asset_name)` (with its
`get_asset_info` fingerprint), `source_info` is the source fingerprint.
The code sets `need_sync = True` when the ledger key is missing; otherwise
when the target asset is missing; otherwise when the sizes differ;
otherwise when both timestamps are present and the source one is strictly
later. -/
def need_sync (hasLedgerKey : Bool) (target_asset : Option AssetInfo)
    (source_info : AssetInfo) : Bool :=
  if !hasLedgerKey then true
  else match target_asset with
    | none => true
    | some target_info =>
      if source_info.size != target_info.size then true
      else match source_info.updated_at, target_info.updated_at with
        | some source_time, some target_time => decide (source_time > target_time)
        | _, _ => false

/-- Modelled from the spec's words (the quantified sync-trigger property):
need_sync is true iff the target asset is absent, or the source size
differs from the target size, or the sizes are equal and the source
timestamp is strictly later than the target timestamp; otherwise false.
This definition follows the specification sentence, for comparison with
the code's `need_sync`; it has no ledger input because the sentence
mentions none. -/
def need_sync_spec (target_asset : Option AssetInfo) (source_info : AssetInfo) : Bool :=
  match target_asset with
  | none => true
  | some target_info =>
    if source_info.size != target_info.size then true
    else match source_info.updated_at, target_info.updated_at with
      | some source_time, some target_time => decide (source_time > target_time)
      | _, _ => false

/-! ## The retry loop `retry_upload` (lines 86-110) -/

/-- Outcome of one upload attempt, as observed by `retry_upload`'s loop
body: the upload returns an asset handle, returns `None`, raises a
`GithubException` with some status, or raises some other exception
(a failure anywhere in the attempt body, e.g. in the pre-delete's listing). -/
inductive UploadOutcome
  | success (a : AssetInfo)
  | returnedNone
  | ghEx (status : Nat)
  | err
deriving DecidableEq

/-- Does the attempt outcome deliver an asset handle? -/
def isSuccess : UploadOutcome → Bool
  | .success _ => true
  | _ => false

/-- Observable trace of one `retry_upload` call: the returned handle (or
`none` after exhaustion), the number of loop iterations executed, the
number of `time.sleep(RETRY_DELAY)` calls, and the number of
`delete_existing_asset` calls. -/
structure UploadTrace where
  result : Option AssetInfo
  attempts : Nat
  sleeps : Nat
  deletes : Nat
deriving DecidableEq

/-- The loop of `retry_upload`, lines 88-108: each iteration first calls
`delete_existing_asset`, then attempts the upload (outcome given by the
oracle `o` at the attempt index).  A handle returns immediately (no
sleep).  A `GithubException` with status 422 triggers a second
`delete_existing_asset`; every non-returning iteration ends with
`time.sleep(RETRY_DELAY)` - the sleep sits outside the `try`, so it runs
on the 422 path too. -/
def retryUploadAux (o : Nat → UploadOutcome) : Nat → Nat → UploadTrace
  | _, 0 => ⟨none, 0, 0, 0⟩
  | i, n + 1 =>
    match o i with
    | .success a => ⟨some a, 1, 0, 1⟩
    | .returnedNone =>
      let t := retryUploadAux o (i + 1) n
      ⟨t.result, t.attempts + 1, t.sleeps + 1, t.deletes + 1⟩
    | .ghEx s =>
      let t := retryUploadAux o (i + 1) n
      if s = 422 then ⟨t.result, t.attempts + 1, t.sleeps + 1, t.deletes + 2⟩
      else ⟨t.result, t.attempts + 1, t.sleeps + 1, t.deletes + 1⟩
    | .err =>
      let t := retryUploadAux o (i + 1) n
      ⟨t.result, t.attempts + 1, t.sleeps + 1, t.deletes + 1⟩

/-- `retry_upload` with `RETRY_COUNT = retryCount`: run the attempt loop
from attempt index 0. -/
def retry_upload (o : Nat → UploadOutcome) (retryCount : Nat) : UploadTrace :=
  retryUploadAux o 0 retryCount

/-- The script's default `RETRY_COUNT` (`os.environ.get('RETRY_COUNT', 3)`). -/
def RETRY_COUNT_default : Nat := 3

/-! ## `download_file` (lines 253-284) -/

/-- Observable outcome of one `download_file` call: the content sitting at
`save_path` afterwards (models the returned file; `none` after a failed
download, which removes the partial file), the number of HTTP requests
made, and whether the call re-raised. -/
structure DownloadOutcome where
  content_at_path : Option Nat
  requests : Nat
  raised : Bool
deriving DecidableEq

/-- `download_file(url, save_path)`: if a file already exists at
`save_path` the function returns that path at once (no request); otherwise
it performs one HTTP request (`fetch` is its result; `none` models a
failure, after which the partial file is removed and the exception
re-raised).  File contents are abstracted as naturals. -/
def download_file (existing : Option Nat) (fetch : Option Nat) : DownloadOutcome :=
  match existing with
  | some c => ⟨some c, 0, false⟩
  | none =>
    match fetch with
    | some c => ⟨some c, 1, false⟩
    | none => ⟨none, 1, true⟩

/-! ## Source-archive sync `sync_source_code` (lines 114-168) -/

/-- The two well-known archive filenames of `sync_source_code`,
`SourceCode_<tag>.zip` and `SourceCode_<tag>.tar.gz` (the keys of the
`source_files` dict; the URL values are external input to the transfer). -/
def source_files (tag : String) : List String :=
  ["SourceCode_" ++ tag ++ ".zip", "SourceCode_" ++ tag ++ ".tar.gz"]

/-- One iteration of the `sync_source_code` loop (lines 130-165) for one
archive filename.  `targetNames` are the names of the target release's
existing assets (computed once before the loop); `sc` is the ledger's
`source_codes[tag_name]` dict; `transferOk` tells whether the
download-and-`retry_upload` of this file would succeed.  Returns the new
`sc` and the number of downloads started for this file. -/
def syncSourceFile (targetNames : List String) (now : Nat) (transferOk : Bool)
    (sc : List (String × SourceCodeEntry)) (file : String) :
    List (String × SourceCodeEntry) × Nat :=
  if file ∈ targetNames then
    if (alookup sc file).isSome then (sc, 0)
    else (ainsert sc file ⟨true, now⟩, 0)
  else
    if transferOk then (ainsert sc file ⟨true, now⟩, 1) else (sc, 1)

/-- The full `sync_source_code` loop over both archive filenames, threading
the `source_codes[tag_name]` dict and summing the downloads. -/
def sync_source_code (tag : String) (targetNames : List String) (now : Nat)
    (transferOk : String → Bool) (sc : List (String × SourceCodeEntry)) :
    List (String × SourceCodeEntry) × Nat :=
  (source_files tag).foldl
    (fun acc file =>
      let r := syncSourceFile targetNames now (transferOk file) acc.1 file
      (r.1, acc.2 + r.2))
    (sc, 0)

/-! ## The asset reconciliation loop of `sync_release_assets` (lines 172-249) -/

/-- Result of one `sync_release_assets` call: the live target-release
assets after the loop, the release's ledger `assets` dict, and how many
transfers (download-and-upload cycles) were started. -/
structure RunOut where
  target : List (String × AssetInfo)
  ledger : List (String × LedgerAsset)
  transfers : Nat
deriving DecidableEq

/-- Count one more transfer on a loop result. -/
def bump (r : RunOut) : RunOut := ⟨r.target, r.ledger, r.transfers + 1⟩

/-- The `for asset in source_assets` loop of `sync_release_assets`.
`snapshot` is the `target_assets` dict built once before the loop (the
code never refreshes it); `tgt` is the live remote state of the target
release's assets; `led` is `synced_data['assets'][source_id]`.  When
`need_sync` holds, the asset is downloaded and `retry_upload` runs: on
success (`ok name`) the uploaded target asset has the transferred content's
size and the upload instant `now` as its timestamp, and the ledger gains
the re-read fingerprint under `asset_key`; on exhaustion the same-named
target asset has been deleted by `retry_upload`'s pre-delete and the
ledger is not written.  Either way the transfer counter increases. -/
def runAssets (now : Nat) (ok : String → Bool) (snapshot : List (String × AssetInfo)) :
    List SourceAsset → List (String × AssetInfo) → List (String × LedgerAsset) → RunOut
  | [], tgt, led => ⟨tgt, led, 0⟩
  | a :: rest, tgt, led =>
    if need_sync (alookup led (asset_key a.name a.size)).isSome
        (alookup snapshot a.name) ⟨a.size, a.updated_at⟩ then
      if ok a.name then
        bump (runAssets now ok snapshot rest (ainsert tgt a.name ⟨a.size, some now⟩)
          (ainsert led (asset_key a.name a.size) ⟨a.name, a.size, some now, now⟩))
      else
        bump (runAssets now ok snapshot rest (aerase tgt a.name) led)
    else
      runAssets now ok snapshot rest tgt led

/-- `sync_release_assets`: take the `target_assets` snapshot from the
target release's current assets, then run the loop. -/
def sync_release_assets (now : Nat) (ok : String → Bool)
    (sourceAssets : List SourceAsset) (targetAssets : List (String × AssetInfo))
    (led : List (String × LedgerAsset)) : RunOut :=
  runAssets now ok targetAssets sourceAssets targetAssets led

/-- The ledger effect of one iteration of `sync_release_assets`
(lines 218-247) for one asset, with the transfer outcome as input: when
`need_sync` holds, the download succeeded and `retry_upload` returned a
handle `u`, the ledger gains, under `asset_key(name, source size)`, the
fingerprint re-read from the uploaded target asset (`get_asset_info` of
the upload result); in every other case the ledger is unchanged. -/
def sync_asset_ledger (led : List (String × LedgerAsset)) (a : SourceAsset)
    (hasLedgerKey : Bool) (target_asset : Option AssetInfo) (downloadOk : Bool)
    (uploaded : Option AssetInfo) (now : Nat) : List (String × LedgerAsset) :=
  if need_sync hasLedgerKey target_asset ⟨a.size, a.updated_at⟩ then
    if downloadOk then
      match uploaded with
      | some u => ainsert led (asset_key a.name a.size) ⟨a.name, u.size, u.updated_at, now⟩
      | none => led
    else led
  else led

/-- The state reached by a run, per asset: the ledger holds the asset's
composite key, and the target release holds a same-named asset of the
source's size whose timestamp (when both are present) is not older than
the source's.  `need_sync` is false exactly in this situation. -/
def goodAfter (a : SourceAsset) (tgt : List (String × AssetInfo))
    (led : List (String × LedgerAsset)) : Prop :=
  (alookup led (asset_key a.name a.size)).isSome = true ∧
  ∃ t, alookup tgt a.name = some t ∧ t.size = a.size ∧
    ∀ x y, a.updated_at = some x → t.updated_at = some y → x ≤ y

/-! ## `get_or_create_release` (lines 287-324) and the caller (lines 338-361) -/

/-- A release handle, identified by its tag name. -/
structure Release where
  tag_name : String
deriving DecidableEq

/-- The `for release in target_repo.get_releases(): if release.tag_name ==
tag_name: return release` scan. -/
def findRelease (releases : List Release) (tag : String) : Option Release :=
  releases.find? (fun r => r.tag_name == tag)

/-- `get_or_create_release`: return an existing target release matching the
tag; otherwise attempt creation (tag-ref ensure plus
`create_git_release`, collapsed into the external outcome `created`,
`none` meaning the attempt raised); on a failed creation, re-list the
target's releases (`relisted`) and return a match from them if one now
exists, else `None`. -/
def get_or_create_release (targets : List Release) (tag : String)
    (created : Option Release) (relisted : List Release) : Option Release :=
  match findRelease targets tag with
  | some r => some r
  | none =>
    match created with
    | some r => some r
    | none => findRelease relisted tag

/-- One iteration of `main`'s release loop (lines 338-361), restricted to
its ledger effect: when `get_or_create_release` returned `None` the release
is skipped (`continue`) and the ledger is untouched; otherwise
`sync_source_code` and `sync_release_assets` run and the release is marked
fully synced. -/
def processRelease (sd : SyncedData) (sourceId tag : String)
    (sourceAssets : List SourceAsset)
    (targetRelease : Option (List (String × AssetInfo))) (now : Nat)
    (scOk upOk : String → Bool) : SyncedData :=
  match targetRelease with
  | none => sd
  | some targetAssets =>
    let targetNames := targetAssets.map Prod.fst
    let sc1 := (sync_source_code tag targetNames now scOk
      ((alookup sd.source_codes tag).getD [])).1
    let r := sync_release_assets now upOk sourceAssets targetAssets
      ((alookup sd.assets sourceId).getD [])
    { releases := ainsert sd.releases sourceId ⟨tag, now⟩,
      assets := ainsert sd.assets sourceId r.ledger,
      source_codes := ainsert sd.source_codes tag sc1 }

/-! ## Concrete values used by witnesses and counterexamples -/

/-- Per-asset success oracle that always succeeds. -/
def okAll : String → Bool := fun _ => true

/-- A concrete source asset. -/
def wAsset : SourceAsset := ⟨"app.zip", 100, some 5, none⟩

/-- A concrete fingerprint of an uploaded asset, deliberately different
from `wAsset`'s reported size and timestamp. -/
def wUploaded : AssetInfo := ⟨101, some 9⟩

/-- An attempt oracle on which every upload attempt raises a non-conflict
error. -/
def oAllFail : Nat → UploadOutcome := fun _ => UploadOutcome.err

/-- An attempt oracle whose first attempt raises a 422 duplicate-resource
conflict and whose later attempts succeed. -/
def o422 : Nat → UploadOutcome :=
  fun i => if i = 0 then UploadOutcome.ghEx 422 else UploadOutcome.success ⟨1, some 0⟩

/-- A concrete non-empty ledger. -/
def sdA : SyncedData := ⟨[("1", ⟨"v1", 0⟩)], [], []⟩

/-- Filesystem with a valid primary and a distinct valid backup. -/
def fsC2 : LedgerFS := ⟨some (.valid emptySyncedData), some (.valid sdA), none⟩

/-- Filesystem with a valid primary and no backup. -/
def fsW : LedgerFS := ⟨some (.valid emptySyncedData), none, none⟩

/-- Filesystem with no primary and a leftover temp file. -/
def fsW2 : LedgerFS := ⟨none, none, some FData.invalid⟩

/-- Filesystem with a valid primary. -/
def fsL1 : LedgerFS := ⟨some (.valid sdA), none, none⟩

/-- Filesystem with an unparsable primary and a valid backup. -/
def fsL2 : LedgerFS := ⟨some .invalid, some (.valid sdA), none⟩

/-- Filesystem with an unparsable primary and an unparsable backup. -/
def fsL3 : LedgerFS := ⟨some .invalid, some .invalid, none⟩

/-- Filesystem with an unparsable primary and no backup. -/
def fsL4 : LedgerFS := ⟨some .invalid, none, none⟩

/-- Filesystem with no primary file and a valid backup. -/
def fsL5 : LedgerFS := ⟨none, some (.valid sdA), none⟩

/-- A concrete `source_codes[tag]` dict already recording the zip archive. -/
def scW : List (String × SourceCodeEntry) := [("SourceCode_v1.0.zip", ⟨true, 3⟩)]

/-- A concrete release handle. -/
def relW : Release := ⟨"v1.0"⟩

/-! ## Helper lemmas on association lists -/

theorem alookup_ainsert {α : Type} (l : List (String × α)) (k k' : String) (v : α) :
    alookup (ainsert l k v) k' = if k = k' then some v else alookup l k' := rfl

theorem alookup_ainsert_self {α : Type} (l : List (String × α)) (k : String) (v : α) :
    alookup (ainsert l k v) k = some v := by
  simp [alookup_ainsert]

theorem alookup_ainsert_ne {α : Type} (l : List (String × α)) (k k' : String) (v : α)
    (h : k ≠ k') : alookup (ainsert l k v) k' = alookup l k' := by
  simp [alookup_ainsert, h]

theorem alookup_aerase_ne {α : Type} (l : List (String × α)) (k k' : String)
    (h : k ≠ k') : alookup (aerase l k) k' = alookup l k' := by
  induction l with
  | nil => rfl
  | cons p rest ih =>
    simp only [aerase, List.filter_cons] at ih ⊢
    by_cases hp : p.1 = k
    · have hcond : ¬((p.1 != k) = true) := by simp [hp]
      rw [if_neg hcond, ih]
      have hpk : ¬(p.1 = k') := by rw [hp]; exact h
      simp only [alookup, hpk, if_false]
    · have hcond : (p.1 != k) = true := by simp [hp]
      rw [if_pos hcond]
      simp only [alookup, ih]

theorem alookup_ainsert_isSome {α : Type} (l : List (String × α)) (k k' : String)
    (v : α) (h : (alookup l k').isSome = true) :
    (alookup (ainsert l k v) k').isSome = true := by
  rw [alookup_ainsert]
  by_cases hk : k = k' <;> simp [hk, h]

/-! ## Helper lemmas on the asset loop -/

theorem bump_target (r : RunOut) : (bump r).target = r.target := rfl

theorem bump_ledger (r : RunOut) : (bump r).ledger = r.ledger := rfl

theorem runAssets_cons (now : Nat) (ok : String → Bool)
    (snapshot : List (String × AssetInfo)) (a : SourceAsset)
    (rest : List SourceAsset) (tgt : List (String × AssetInfo))
    (led : List (String × LedgerAsset)) :
    runAssets now ok snapshot (a :: rest) tgt led =
      if need_sync (alookup led (asset_key a.name a.size)).isSome
          (alookup snapshot a.name) ⟨a.size, a.updated_at⟩ then
        if ok a.name then
          bump (runAssets now ok snapshot rest (ainsert tgt a.name ⟨a.size, some now⟩)
            (ainsert led (asset_key a.name a.size) ⟨a.name, a.size, some now, now⟩))
        else
          bump (runAssets now ok snapshot rest (aerase tgt a.name) led)
      else
        runAssets now ok snapshot rest tgt led := rfl

theorem runAssets_target_frozen (now : Nat) (ok : String → Bool)
    (snapshot : List (String × AssetInfo)) :
    ∀ (assets : List SourceAsset) (tgt : List (String × AssetInfo))
      (led : List (String × LedgerAsset)) (n : String),
      (∀ a ∈ assets, a.name ≠ n) →
      alookup (runAssets now ok snapshot assets tgt led).target n = alookup tgt n := by
  intro assets
  induction assets with
  | nil => intro tgt led n _; rfl
  | cons a rest ih =>
    intro tgt led n hn
    have hna : a.name ≠ n := hn a (List.mem_cons_self a rest)
    have hrest : ∀ b ∈ rest, b.name ≠ n := fun b hb => hn b (List.mem_cons_of_mem a hb)
    rw [runAssets_cons]
    by_cases hd : need_sync (alookup led (asset_key a.name a.size)).isSome
        (alookup snapshot a.name) ⟨a.size, a.updated_at⟩ = true
    · rw [if_pos hd]
      by_cases ho : ok a.name = true
      · rw [if_pos ho, bump_target, ih _ _ _ hrest, alookup_ainsert_ne _ _ _ _ hna]
      · rw [if_neg ho, bump_target, ih _ _ _ hrest, alookup_aerase_ne _ _ _ hna]
    · rw [if_neg hd]
      exact ih _ _ _ hrest

theorem runAssets_ledger_mono (now : Nat) (ok : String → Bool)
    (snapshot : List (String × AssetInfo)) :
    ∀ (assets : List SourceAsset) (tgt : List (String × AssetInfo))
      (led : List (String × LedgerAsset)) (k : String),
      (alookup led k).isSome = true →
      (alookup (runAssets now ok snapshot assets tgt led).ledger k).isSome = true := by
  intro assets
  induction assets with
  | nil => intro tgt led k h; exact h
  | cons a rest ih =>
    intro tgt led k h
    rw [runAssets_cons]
    by_cases hd : need_sync (alookup led (asset_key a.name a.size)).isSome
        (alookup snapshot a.name) ⟨a.size, a.updated_at⟩ = true
    · rw [if_pos hd]
      by_cases ho : ok a.name = true
      · rw [if_pos ho, bump_ledger]
        exact ih _ _ _ (alookup_ainsert_isSome _ _ _ _ h)
      · rw [if_neg ho, bump_ledger]
        exact ih _ _ _ h
    · rw [if_neg hd]
      exact ih _ _ _ h

theorem need_sync_false_elim (hk : Bool) (target_asset : Option AssetInfo)
    (s : AssetInfo) (h : need_sync hk target_asset s = false) :
    hk = true ∧ ∃ t, target_asset = some t ∧ s.size = t.size ∧
      ∀ x y, s.updated_at = some x → t.updated_at = some y → x ≤ y := by
  cases hk with
  | false => simp [need_sync] at h
  | true =>
    cases target_asset with
    | none => simp [need_sync] at h
    | some t =>
      by_cases hsz : s.size = t.size
      · refine ⟨rfl, t, rfl, hsz, ?_⟩
        intro x y hx hy
        simp [need_sync, hsz, hx, hy] at h
        omega
      · simp [need_sync, hsz] at h

theorem need_sync_of_good (a : SourceAsset)
    (tgt : List (String × AssetInfo)) (led : List (String × LedgerAsset))
    (hg : goodAfter a tgt led) :
    need_sync (alookup led (asset_key a.name a.size)).isSome (alookup tgt a.name)
      ⟨a.size, a.updated_at⟩ = false := by
  obtain ⟨hk, t, ht, hsz, htime⟩ := hg
  rw [ht, hk]
  simp only [need_sync, Bool.not_true, Bool.false_eq_true, if_false]
  rw [if_neg (by simp [hsz])]
  cases hua : a.updated_at with
  | none => cases t.updated_at <;> rfl
  | some x =>
    cases huy : t.updated_at with
    | none => rfl
    | some y =>
      have hxy : x ≤ y := htime x y hua huy
      simp only [decide_eq_false_iff_not]
      omega

theorem runAssets_good (now : Nat) (ok : String → Bool)
    (snapshot : List (String × AssetInfo)) :
    ∀ (assets : List SourceAsset) (tgt : List (String × AssetInfo))
      (led : List (String × LedgerAsset)),
      (assets.map SourceAsset.name).Nodup →
      (∀ a ∈ assets, ok a.name = true) →
      (∀ a ∈ assets, ∀ x, a.updated_at = some x → x ≤ now) →
      (∀ a ∈ assets, alookup tgt a.name = alookup snapshot a.name) →
      ∀ a ∈ assets,
        goodAfter a (runAssets now ok snapshot assets tgt led).target
          (runAssets now ok snapshot assets tgt led).ledger := by
  intro assets
  induction assets with
  | nil => intro tgt led _ _ _ _ a ha; exact absurd ha (List.not_mem_nil a)
  | cons a rest ih =>
    intro tgt led hnd hok ht hinv b hb
    have hok_a : ok a.name = true := hok a (List.mem_cons_self a rest)
    have hnd2 := hnd
    rw [List.map_cons, List.nodup_cons] at hnd2
    have hnotin : a.name ∉ rest.map SourceAsset.name := hnd2.1
    have hndr : (rest.map SourceAsset.name).Nodup := hnd2.2
    have hname_rest : ∀ c ∈ rest, c.name ≠ a.name := by
      intro c hc hceq
      exact hnotin (hceq ▸ List.mem_map_of_mem SourceAsset.name hc)
    rw [runAssets_cons]
    by_cases hd : need_sync (alookup led (asset_key a.name a.size)).isSome
        (alookup snapshot a.name) ⟨a.size, a.updated_at⟩ = true
    · rw [if_pos hd, if_pos hok_a, bump_target, bump_ledger]
      rcases List.mem_cons.mp hb with rfl | hbr
      · constructor
        · exact runAssets_ledger_mono now ok snapshot rest _ _ _
            (by rw [alookup_ainsert_self]; rfl)
        · refine ⟨⟨b.size, some now⟩, ?_, rfl, ?_⟩
          · rw [runAssets_target_frozen now ok snapshot rest _ _ _ hname_rest]
            exact alookup_ainsert_self _ _ _
          · intro x y hx hy
            have hyy : now = y := Option.some.inj hy
            exact hyy ▸ ht b (List.mem_cons_self b rest) x hx
      · exact ih _ _ hndr
          (fun c hc => hok c (List.mem_cons_of_mem a hc))
          (fun c hc => ht c (List.mem_cons_of_mem a hc))
          (fun c hc => by
            rw [alookup_ainsert_ne _ _ _ _ (fun hh => hname_rest c hc hh.symm)]
            exact hinv c (List.mem_cons_of_mem a hc))
          b hbr
    · rw [if_neg hd]
      have hd0 : need_sync (alookup led (asset_key a.name a.size)).isSome
          (alookup snapshot a.name) ⟨a.size, a.updated_at⟩ = false := by
        cases hcc : need_sync (alookup led (asset_key a.name a.size)).isSome
            (alookup snapshot a.name) ⟨a.size, a.updated_at⟩
        · rfl
        · exact absurd hcc hd
      rcases List.mem_cons.mp hb with rfl | hbr
      · obtain ⟨hk, t, hsnap, hsz, htime⟩ := need_sync_false_elim _ _ _ hd0
        constructor
        · exact runAssets_ledger_mono now ok snapshot rest _ _ _ hk
        · refine ⟨t, ?_, hsz.symm, ?_⟩
          · rw [runAssets_target_frozen now ok snapshot rest _ _ _ hname_rest,
              hinv b (List.mem_cons_self b rest)]
            exact hsnap
          · intro x y hx hy
            exact htime x y hx hy
      · exact ih _ _ hndr
          (fun c hc => hok c (List.mem_cons_of_mem a hc))
          (fun c hc => ht c (List.mem_cons_of_mem a hc))
          (fun c hc => hinv c (List.mem_cons_of_mem a hc))
          b hbr

theorem runAssets_all_skip (now : Nat) (ok : String → Bool)
    (snapshot : List (String × AssetInfo)) :
    ∀ (assets : List SourceAsset) (tgt : List (String × AssetInfo))
      (led : List (String × LedgerAsset)),
      (∀ a ∈ assets, need_sync (alookup led (asset_key a.name a.size)).isSome
        (alookup snapshot a.name) ⟨a.size, a.updated_at⟩ = false) →
      runAssets now ok snapshot assets tgt led = ⟨tgt, led, 0⟩ := by
  intro assets
  induction assets with
  | nil => intro tgt led _; rfl
  | cons a rest ih =>
    intro tgt led h
    rw [runAssets_cons, if_neg (by simp [h a (List.mem_cons_self a rest)])]
    exact ih tgt led (fun c hc => h c (List.mem_cons_of_mem a hc))

/-! ## Helper lemmas on the retry loop -/

theorem retryUploadAux_attempts_le (o : Nat → UploadOutcome) :
    ∀ (n i : Nat), (retryUploadAux o i n).attempts ≤ n := by
  intro n
  induction n with
  | zero => intro i; simp [retryUploadAux]
  | succ n ih =>
    intro i
    cases ho : o i with
    | success a => simp [retryUploadAux, ho]
    | returnedNone => simp only [retryUploadAux, ho]; exact Nat.succ_le_succ (ih (i + 1))
    | ghEx s =>
      simp only [retryUploadAux, ho]
      by_cases hs : s = 422
      · rw [if_pos hs]; exact Nat.succ_le_succ (ih (i + 1))
      · rw [if_neg hs]; exact Nat.succ_le_succ (ih (i + 1))
    | err => simp only [retryUploadAux, ho]; exact Nat.succ_le_succ (ih (i + 1))

theorem retryUploadAux_result_none (o : Nat → UploadOutcome) :
    ∀ (n i : Nat), (∀ j, j < n → isSuccess (o (i + j)) = false) →
      (retryUploadAux o i n).result = none := by
  intro n
  induction n with
  | zero => intro i _; rfl
  | succ n ih =>
    intro i h
    have h0 : isSuccess (o i) = false := by
      have := h 0 (Nat.succ_pos n)
      simpa using this
    have hrest : ∀ j, j < n → isSuccess (o (i + 1 + j)) = false := by
      intro j hj
      have hh := h (j + 1) (by omega)
      have heq : i + (j + 1) = i + 1 + j := by omega
      rw [heq] at hh
      exact hh
    cases ho : o i with
    | success a => rw [ho] at h0; simp [isSuccess] at h0
    | returnedNone => simp only [retryUploadAux, ho]; exact ih (i + 1) hrest
    | ghEx s =>
      simp only [retryUploadAux, ho]
      by_cases hs : s = 422
      · rw [if_pos hs]; exact ih (i + 1) hrest
      · rw [if_neg hs]; exact ih (i + 1) hrest
    | err => simp only [retryUploadAux, ho]; exact ih (i + 1) hrest

/-! ## Claim C1: the need_sync decision -/

/-- Claim C1 (counterexample): the claim's iff fails on the code.  When the
ledger has no entry for the composite key, the code syncs even though the
target asset is present with equal size and an equally recent timestamp,
so the decision is true while the claim's condition (absent target, or
size mismatch, or strictly later source time) is false. -/
theorem need_sync_ledger_cex :
    need_sync false (some ⟨5, some 3⟩) ⟨5, some 3⟩ = true ∧
    need_sync_spec (some ⟨5, some 3⟩) ⟨5, some 3⟩ = false := by
  decide

/-- Claim C1 (corrected): provided the ledger already holds an entry for
the composite key `name_sourceSize` under this source release id, the
`need_sync` decision is true iff the target asset is absent, or the source
size differs from the target size, or the sizes are equal and the source
timestamp is strictly later than the target timestamp, and false in every
other case; when the ledger entry is absent the decision is
unconditionally true. -/
theorem need_sync_amended :
    ∀ (target_asset : Option AssetInfo) (source_info : AssetInfo),
      need_sync true target_asset source_info = need_sync_spec target_asset source_info ∧
      need_sync false target_asset source_info = true := by
  intro target_asset source_info
  refine ⟨?_, rfl⟩
  cases target_asset <;> rfl

/-! ## Claim C2: save failure behaviour -/

/-- Claim C2 (counterexample): a failure of the second `os.replace` (temp
onto primary) does not leave the primary and backup as they were: by then
the old primary has already been moved onto the backup slot, so the backup
is overwritten and the primary slot is left empty. -/
theorem save_fail_cex :
    (save_synced_data fsC2 sdA .atPrimaryReplace).backup ≠ fsC2.backup ∧
    (save_synced_data fsC2 sdA .atPrimaryReplace).primary ≠ fsC2.primary := by
  decide

/-- Claim C2 (corrected): on any failure the temporary file is removed.  A
failure while writing the temp file or during the primary-to-backup
replace leaves the primary and backup exactly as they were.  But a failure
of the final temp-to-primary replace, when a primary existed, leaves the
primary slot empty and the backup slot holding the previous primary: the
previous primary's content survives one slot down (at most one generation
of data is lost), yet the files are not untouched.  When no primary
existed, that failure too leaves both slots unchanged. -/
theorem save_fail_amended (fs fs2 : LedgerFS) (d : SyncedData) (p : FData)
    (hp : fs.primary = some p) (hp2 : fs2.primary = none) :
    save_synced_data fs d .atWrite = { fs with temp := none } ∧
    save_synced_data fs d .atBackupReplace = { fs with temp := none } ∧
    save_synced_data fs d .atPrimaryReplace
      = { primary := none, backup := some p, temp := none } ∧
    save_synced_data fs2 d .atWrite = { fs2 with temp := none } ∧
    save_synced_data fs2 d .atPrimaryReplace = { fs2 with temp := none } := by
  refine ⟨rfl, ?_, ?_, rfl, ?_⟩ <;> simp [save_synced_data, hp, hp2]

/-- Claim C2 (witness): the corrected statement at a filesystem with a
valid primary and no backup, and one with no primary and a leftover temp. -/
theorem save_fail_amended_witness :
    save_synced_data fsW sdA .atWrite = { fsW with temp := none } ∧
    save_synced_data fsW sdA .atBackupReplace = { fsW with temp := none } ∧
    save_synced_data fsW sdA .atPrimaryReplace
      = { primary := none, backup := some (FData.valid emptySyncedData), temp := none } ∧
    save_synced_data fsW2 sdA .atWrite = { fsW2 with temp := none } ∧
    save_synced_data fsW2 sdA .atPrimaryReplace = { fsW2 with temp := none } :=
  save_fail_amended fsW fsW2 sdA (FData.valid emptySyncedData) rfl rfl

/-! ## Claim C3: load fallback behaviour -/

/-- Claim C3 (counterexample): with no primary file on disk but a valid
backup holding a non-empty ledger, `load_synced_data` returns the empty
ledger, not the backup's content: the `os.path.exists` guard means an
absent primary raises nothing, so the backup branch is never reached. -/
theorem load_absent_primary_cex :
    fsL5.backup = some (FData.valid sdA) ∧
    load_synced_data fsL5 = emptySyncedData ∧
    emptySyncedData ≠ sdA := by
  decide

/-- Claim C3 (corrected): the ledger load is a total function of the file
state, so it never raises.  It returns the primary's parsed content when
the primary file exists and parses; when the primary exists but fails to
parse it returns the backup's content when the backup exists and is valid,
and the empty ledger when the backup is unparsable or absent; and when the
primary file is absent it returns the empty ledger even if a valid backup
exists (the backup is only consulted after a read/parse failure of an
existing primary). -/
theorem load_fallback_amended (fs1 fs2 fs3 fs4 fs5 : LedgerFS) (d1 d2 : SyncedData)
    (h1 : fs1.primary = some (FData.valid d1))
    (h2a : fs2.primary = some FData.invalid)
    (h2b : fs2.backup = some (FData.valid d2))
    (h3a : fs3.primary = some FData.invalid)
    (h3b : fs3.backup = some FData.invalid)
    (h4a : fs4.primary = some FData.invalid)
    (h4b : fs4.backup = none)
    (h5 : fs5.primary = none) :
    load_synced_data fs1 = d1 ∧
    load_synced_data fs2 = d2 ∧
    load_synced_data fs3 = emptySyncedData ∧
    load_synced_data fs4 = emptySyncedData ∧
    load_synced_data fs5 = emptySyncedData := by
  refine ⟨?_, ?_, ?_, ?_, ?_⟩ <;>
    simp [load_synced_data, h1, h2a, h2b, h3a, h3b, h4a, h4b, h5]

/-- Claim C3 (witness): the corrected statement at the five concrete file
states. -/
theorem load_fallback_amended_witness :
    load_synced_data fsL1 = sdA ∧
    load_synced_data fsL2 = sdA ∧
    load_synced_data fsL3 = emptySyncedData ∧
    load_synced_data fsL4 = emptySyncedData ∧
    load_synced_data fsL5 = emptySyncedData :=
  load_fallback_amended fsL1 fsL2 fsL3 fsL4 fsL5 sdA sdA rfl rfl rfl rfl rfl rfl rfl rfl

/-! ## Claim C4: idempotence of the asset reconciler -/

/-- Claim C4 (confirmed): running the asset reconciler twice in a row with
no external changes to the source or target state between the runs
performs zero transfers on the second run.  Hypotheses: asset names are
unique within the release (a platform invariant), every transfer of the
first run succeeds (an asset whose transfer failed is exactly one left for
the next run), and the first run's upload instant is not earlier than any
source timestamp.  The second run starts from the target state and ledger
the first run produced; its clock and upload oracle are arbitrary. -/
theorem second_run_zero_transfers (now now2 : Nat) (ok ok2 : String → Bool)
    (sourceAssets : List SourceAsset) (tgt0 : List (String × AssetInfo))
    (led0 : List (String × LedgerAsset))
    (hnd : (sourceAssets.map SourceAsset.name).Nodup)
    (hok : ∀ a ∈ sourceAssets, ok a.name = true)
    (ht : ∀ a ∈ sourceAssets, ∀ x, a.updated_at = some x → x ≤ now) :
    (sync_release_assets now2 ok2 sourceAssets
      (sync_release_assets now ok sourceAssets tgt0 led0).target
      (sync_release_assets now ok sourceAssets tgt0 led0).ledger).transfers = 0 := by
  have hgood := runAssets_good now ok tgt0 sourceAssets tgt0 led0 hnd hok ht
    (fun a _ => rfl)
  simp only [sync_release_assets]
  rw [runAssets_all_skip now2 ok2 _ sourceAssets _ _
    (fun a ha => need_sync_of_good a _ _ (hgood a ha))]

/-- Claim C4 (witness): a singleton release whose only asset is absent from
the target and the ledger; the first run syncs it, the second run performs
zero transfers. -/
theorem second_run_zero_transfers_witness :
    (sync_release_assets 20 okAll [wAsset]
      (sync_release_assets 10 okAll [wAsset] [] []).target
      (sync_release_assets 10 okAll [wAsset] [] []).ledger).transfers = 0 :=
  second_run_zero_transfers 10 20 okAll okAll [wAsset] [] []
    (by decide)
    (by intro a ha; rfl)
    (by
      intro a ha x hx
      rw [List.mem_singleton] at ha
      subst ha
      have hxx : (5 : Nat) = x := Option.some.inj hx
      omega)

/-! ## Claim C5: conflict recovery in the retry loop -/

/-- Claim C5 (counterexample): a single simulated duplicate-name (422)
failure followed by a successful retry does succeed within the same call,
but the retry consumes one full `RETRY_DELAY` sleep: `time.sleep` sits
outside the `try` block and runs after the 422 handler as well, so the
conflict path is not retried "without consuming extra delay" as claimed. -/
theorem retry_upload_delay_cex :
    (retry_upload o422 3).result = some ⟨1, some 0⟩ ∧
    (retry_upload o422 3).sleeps = 1 := by
  decide

/-- Claim C5 (corrected): when an upload attempt fails with a
duplicate-resource (422) error, the executor performs an extra delete of
the conflicting target asset and retries, but only after the same
configured backoff delay as any other failure; a single simulated
duplicate-name failure followed by a successful retry results in success
within the same call (two attempts, three delete calls, one delay), not a
propagated failure. -/
theorem retry_upload_conflict_retry (o : Nat → UploadOutcome) (a : AssetInfo)
    (h0 : o 0 = UploadOutcome.ghEx 422) (h1 : o 1 = UploadOutcome.success a) :
    retry_upload o 3 = ⟨some a, 2, 1, 3⟩ := by
  simp [retry_upload, retryUploadAux, h0, h1]

/-- Claim C5 (witness): the corrected statement at the concrete oracle
whose first attempt hits the 422 conflict and whose second succeeds. -/
theorem retry_upload_conflict_retry_witness :
    retry_upload o422 3 = ⟨some ⟨1, some 0⟩, 2, 1, 3⟩ :=
  retry_upload_conflict_retry o422 ⟨1, some 0⟩ rfl rfl

/-! ## Claim C6: the retry loop is bounded and reports failure -/

/-- Claim C6 (confirmed): `retry_upload` executes at most the configured
number of attempts (the script's default configuration is
`RETRY_COUNT_default = 3`); the loop is a bounded iteration, hence
terminates; and when no attempt within the bound yields an asset handle it
returns `None` to the caller (reporting failure rather than raising),
leaving the asset unsynced for this run. -/
theorem retry_upload_bounded (o o2 : Nat → UploadOutcome) (n n2 : Nat)
    (hfail : ∀ j, j < n2 → isSuccess (o2 j) = false) :
    (retry_upload o n).attempts ≤ n ∧ (retry_upload o2 n2).result = none := by
  constructor
  · exact retryUploadAux_attempts_le o n 0
  · exact retryUploadAux_result_none o2 n2 0 (by intro j hj; simpa using hfail j hj)

/-- Claim C6 (witness): with the default bound of 3 attempts and every
attempt failing, the trace stays within 3 attempts and reports `none`. -/
theorem retry_upload_bounded_witness :
    (retry_upload oAllFail RETRY_COUNT_default).attempts ≤ RETRY_COUNT_default ∧
    (retry_upload oAllFail RETRY_COUNT_default).result = none :=
  retry_upload_bounded oAllFail oAllFail RETRY_COUNT_default RETRY_COUNT_default
    (by intro j hj; rfl)

/-! ## Claim C7: source-archive existence check -/

/-- Claim C7 (confirmed): for an archive filename of the two well-known
source-archive names, when the target release already has an asset of that
exact name, the loop body starts zero downloads; if the ledger already
records the file the ledger is returned unchanged, and otherwise exactly
the presence marker `{exists: true, synced_at: now}` is inserted - after
which the file is recorded.  Name existence alone decides; no content is
fetched or compared. -/
theorem source_archive_presence_skip (tag : String) (targetNames : List String)
    (now : Nat) (transferOk : Bool) (sc sc2 : List (String × SourceCodeEntry))
    (file : String) (hfile : file ∈ source_files tag) (hexists : file ∈ targetNames)
    (hrec : (alookup sc file).isSome = true)
    (hnew : (alookup sc2 file).isSome = false) :
    syncSourceFile targetNames now transferOk sc file = (sc, 0) ∧
    syncSourceFile targetNames now transferOk sc2 file
      = (ainsert sc2 file ⟨true, now⟩, 0) ∧
    (alookup (ainsert sc2 file ⟨true, now⟩) file).isSome = true := by
  refine ⟨?_, ?_, ?_⟩
  · simp [syncSourceFile, hexists, hrec]
  · simp [syncSourceFile, hexists, hnew]
  · rw [alookup_ainsert_self]; rfl

/-- Claim C7 (witness): the zip archive of tag `v1.0` already present in
the target, once with the ledger already recording it and once without;
the transfer capability is set to fail to show it is never consulted. -/
theorem source_archive_presence_skip_witness :
    syncSourceFile ["SourceCode_v1.0.zip"] 9 false scW "SourceCode_v1.0.zip"
      = (scW, 0) ∧
    syncSourceFile ["SourceCode_v1.0.zip"] 9 false [] "SourceCode_v1.0.zip"
      = (ainsert [] "SourceCode_v1.0.zip" ⟨true, 9⟩, 0) ∧
    (alookup (ainsert ([] : List (String × SourceCodeEntry)) "SourceCode_v1.0.zip"
      ⟨true, 9⟩) "SourceCode_v1.0.zip").isSome = true :=
  source_archive_presence_skip "v1.0" ["SourceCode_v1.0.zip"] 9 false scW []
    "SourceCode_v1.0.zip" (by decide) (by decide) (by decide) (by decide)

/-! ## Claim C8: the ledger fingerprint written after a transfer -/

/-- Claim C8 (confirmed): the asset reconciler writes a ledger entry for an
asset exactly when the sync was needed and the transfer succeeded, and the
entry it writes sits under the composite key built from the asset name and
the source asset's size while carrying the size and timestamp re-read from
the uploaded target asset `u` - not the source's reported values.  When
sync is not needed, or the download fails, or the upload returns no
handle, the ledger is unchanged. -/
theorem ledger_fingerprint_policy (led led2 : List (String × LedgerAsset))
    (a a2 : SourceAsset) (hk hk2 : Bool) (tgt tgt2 : Option AssetInfo)
    (u : AssetInfo) (up2 : Option AssetInfo) (dOk2 : Bool) (now now2 : Nat)
    (hsync : need_sync hk tgt ⟨a.size, a.updated_at⟩ = true)
    (hskip : need_sync hk2 tgt2 ⟨a2.size, a2.updated_at⟩ = false) :
    sync_asset_ledger led a hk tgt true (some u) now
      = ainsert led (asset_key a.name a.size) ⟨a.name, u.size, u.updated_at, now⟩ ∧
    sync_asset_ledger led a hk tgt true none now = led ∧
    sync_asset_ledger led a hk tgt false (some u) now = led ∧
    sync_asset_ledger led2 a2 hk2 tgt2 dOk2 up2 now2 = led2 := by
  refine ⟨?_, ?_, ?_, ?_⟩ <;> simp [sync_asset_ledger, hsync, hskip]

/-- Claim C8 (witness): the policy at a concrete asset missing from the
target (sync needed) and one whose target copy matches (no sync); the
uploaded asset's re-read fingerprint differs from the source's reported
values and is what gets stored. -/
theorem ledger_fingerprint_policy_witness :
    sync_asset_ledger [] wAsset true none true (some wUploaded) 7
      = ainsert [] (asset_key "app.zip" 100) ⟨"app.zip", 101, some 9, 7⟩ ∧
    sync_asset_ledger [] wAsset true none true none 7 = [] ∧
    sync_asset_ledger [] wAsset true none false (some wUploaded) 7 = [] ∧
    sync_asset_ledger [] wAsset true (some ⟨100, some 5⟩) true (some wUploaded) 7
      = [] :=
  ledger_fingerprint_policy [] [] wAsset wAsset true true none (some ⟨100, some 5⟩)
    wUploaded (some wUploaded) true 7 7 (by decide) (by decide)

/-! ## Claim C9: release-creation failure recovery -/

/-- Claim C9 (confirmed): when no target release matches the tag and the
creation attempt fails, `get_or_create_release` returns exactly the result
of re-scanning the freshly re-listed target releases for the tag - a
matching release when one now exists, otherwise `None` - and when the
caller receives `None` it skips the release: the ledger from before the
release is returned unchanged, so no partial state is persisted for it. -/
theorem release_create_failure_skip (targets relisted : List Release) (tag : String)
    (sd : SyncedData) (sourceId : String) (sourceAssets : List SourceAsset)
    (now : Nat) (scOk upOk : String → Bool)
    (hmiss : findRelease targets tag = none) :
    get_or_create_release targets tag none relisted = findRelease relisted tag ∧
    processRelease sd sourceId tag sourceAssets none now scOk upOk = sd := by
  constructor
  · simp [get_or_create_release, hmiss]
  · rfl

/-- Claim C9 (witness): an empty target list, a failed creation, and a
re-list that does contain the tag; the skip case leaves the empty ledger
untouched. -/
theorem release_create_failure_skip_witness :
    get_or_create_release [] "v1.0" none [relW] = findRelease [relW] "v1.0" ∧
    processRelease emptySyncedData "77" "v1.0" [wAsset] none 4 okAll okAll
      = emptySyncedData :=
  release_create_failure_skip [] [relW] "v1.0" emptySyncedData "77" [wAsset] 4
    okAll okAll rfl

/-! ## Claim C10: download short-circuit on an existing file -/

/-- Claim C10 (confirmed): whenever a file already exists at the
destination path, `download_file` returns that path immediately - zero
network requests, no exception - and the bytes already at the path are
what the caller gets as the downloaded content, whatever the URL's fetch
would have produced. -/
theorem download_file_existing :
    ∀ (c : Nat) (fetch : Option Nat),
      download_file (some c) fetch = ⟨some c, 0, false⟩ := by
  intro c fetch
  rfl

end Mirror
